import Mathlib

/-!
Verification of `vmexporter.py`, a small HTTP proxy that converts
VictoriaMetrics line-delimited JSON export output into Prometheus
exposition format.

The development shallow-embeds the three core pieces of the program:
  * `make_url`      — the query translator (source lines 93-117),
  * the per-line record conversion loop of `handle_export`
    (source lines 141-155), modelled by `loads`, `convertRecord`
    and `convertLines`,
  * `handle_export` — the export handler orchestration
    (source lines 120-170).

Python-specific behaviour is modelled explicitly: machine floats are
modelled as rationals, `dict` subscription raising `KeyError`, string
truthiness, `str.splitlines`, and the `except (ClientError,
JSONDecodeError, ValueError)` clause which determines which failures are
caught (and hence counted) and which propagate out of the handler.
-/

namespace VMExporter

/-- A JSON value as produced by Python's `json.loads`, restricted to
integer-valued numbers (all numeric data in the claims is integral).
Objects keep insertion order, as Python dicts do. -/
inductive Json where
  | null : Json
  | bool (b : Bool) : Json
  | num (n : Int) : Json
  | str (s : String) : Json
  | arr (elems : List Json) : Json
  | obj (fields : List (String × Json)) : Json
deriving Repr

/-- The Python exceptions that the program can raise.  `clientError`,
`jsonDecodeError` and `valueError` are the ones named in the handler's
`except` clause; `keyError`, `typeError` and `attributeError` are not
caught anywhere and propagate out of the handler. -/
inductive PyExc where
  | clientError (msg : String) : PyExc
  | jsonDecodeError (msg : String) : PyExc
  | valueError (msg : String) : PyExc
  | keyError (key : String) : PyExc
  | typeError (msg : String) : PyExc
  | attributeError (msg : String) : PyExc
deriving Repr, DecidableEq

/-- `str(exc)`: the textual description of an exception, used as the
body of the 400 response. -/
def PyExc.text : PyExc → String
  | .clientError m => m
  | .jsonDecodeError m => m
  | .valueError m => m
  | .keyError k => "\x27" ++ k ++ "\x27"
  | .typeError m => m
  | .attributeError m => m

/-- The exceptions caught by `except (ClientError, JSONDecodeError,
ValueError)` at source line 157.  `JSONDecodeError` is a subclass of
`ValueError`; `KeyError`, `TypeError` and `AttributeError` are not
listed and therefore not caught. -/
def PyExc.caught : PyExc → Bool
  | .clientError _ => true
  | .jsonDecodeError _ => true
  | .valueError _ => true
  | .keyError _ => false
  | .typeError _ => false
  | .attributeError _ => false

end VMExporter

namespace VMExporter

/-! ### Python rendering of values (`str()` inside f-strings) -/

mutual

/-- Python `repr` of a `json.loads` result (approximate: string escaping
inside `repr` is not modelled; the claims never render exotic strings). -/
def Json.pyRepr : Json → String
  | .null => "None"
  | .bool true => "True"
  | .bool false => "False"
  | .num n => toString n
  | .str s => "\x27" ++ s ++ "\x27"
  | .arr elems => "[" ++ Json.pyReprList elems ++ "]"
  | .obj fields => "\x7b" ++ Json.pyReprFields fields ++ "\x7d"

def Json.pyReprList : List Json → String
  | [] => ""
  | [j] => j.pyRepr
  | j :: rest => j.pyRepr ++ ", " ++ Json.pyReprList rest

def Json.pyReprFields : List (String × Json) → String
  | [] => ""
  | [(k, v)] => "\x27" ++ k ++ "\x27: " ++ v.pyRepr
  | (k, v) :: rest => "\x27" ++ k ++ "\x27: " ++ v.pyRepr ++ ", " ++ Json.pyReprFields rest

end

/-- Python `str()` of a `json.loads` result, as interpolated by an
f-string: a `str` value is interpolated verbatim, everything else via
`repr`-like rendering. -/
def Json.pyStr : Json → String
  | .str s => s
  | j => j.pyRepr

/-! ### `json.loads`, modelled by a recursive-descent JSON reader.
Numbers are restricted to (signed) decimal integers; fractional and
exponent forms are outside the model. -/

def isDigit (c : Char) : Bool := '0' ≤ c && c ≤ '9'

def isJsonWs (c : Char) : Bool := c = ' ' || c = '\t' || c = '\n' || c = '\r'

def skipWs : List Char → List Char
  | [] => []
  | c :: cs => if isJsonWs c then skipWs cs else c :: cs

/-- Consume a maximal run of decimal digits, returning its value. -/
def takeDigits : List Char → Nat → Nat × List Char
  | c :: cs, acc =>
    if isDigit c then takeDigits cs (acc * 10 + (c.toNat - 48)) else (acc, c :: cs)
  | [], acc => (acc, [])

/-- Parse a nonempty digit run. -/
def readNat (cs : List Char) : Option (Nat × List Char) :=
  match cs with
  | c :: _ => if isDigit c then some (takeDigits cs 0) else none
  | [] => none

def hexVal (c : Char) : Option Nat :=
  if isDigit c then some (c.toNat - 48)
  else if 'a' ≤ c && c ≤ 'f' then some (c.toNat - 97 + 10)
  else if 'A' ≤ c && c ≤ 'F' then some (c.toNat - 65 + 10)
  else none

/-- Read the body of a JSON string (the opening quote already consumed),
handling the standard escapes. -/
def readStringBody : List Char → List Char → Option (String × List Char)
  | [], _ => none
  | '"' :: rest, acc => some (String.mk acc.reverse, rest)
  | '\\' :: e :: rest, acc =>
    match e with
    | '"' => readStringBody rest ('"' :: acc)
    | '\\' => readStringBody rest ('\\' :: acc)
    | '/' => readStringBody rest ('/' :: acc)
    | 'n' => readStringBody rest ('\n' :: acc)
    | 't' => readStringBody rest ('\t' :: acc)
    | 'r' => readStringBody rest ('\r' :: acc)
    | 'b' => readStringBody rest ('\x08' :: acc)
    | 'f' => readStringBody rest ('\x0c' :: acc)
    | 'u' =>
      match rest with
      | h1 :: h2 :: h3 :: h4 :: rest2 =>
        match hexVal h1, hexVal h2, hexVal h3, hexVal h4 with
        | some a, some b, some c, some d =>
          readStringBody rest2 (Char.ofNat (((a * 16 + b) * 16 + c) * 16 + d) :: acc)
        | _, _, _, _ => none
      | _ => none
    | _ => none
  | '\\' :: [], _ => none
  | c :: rest, acc => readStringBody rest (c :: acc)

/-- Insert a key into an in-order association list the way Python dict
assignment does: an existing key keeps its position and gets the new
value, a new key is appended. -/
def insertKV : List (String × Json) → String → Json → List (String × Json)
  | [], k, v => [(k, v)]
  | (k0, v0) :: rest, k, v =>
    if k0 = k then (k0, v) :: rest else (k0, v0) :: insertKV rest k v

mutual

/-- Parse one JSON value (fuelled for termination). -/
def readVal : Nat → List Char → Option (Json × List Char)
  | 0, _ => none
  | fuel + 1, cs =>
    match skipWs cs with
    | 'n' :: 'u' :: 'l' :: 'l' :: rest => some (.null, rest)
    | 't' :: 'r' :: 'u' :: 'e' :: rest => some (.bool true, rest)
    | 'f' :: 'a' :: 'l' :: 's' :: 'e' :: rest => some (.bool false, rest)
    | '"' :: rest =>
      match readStringBody rest [] with
      | some (s, rest2) => some (.str s, rest2)
      | none => none
    | '[' :: rest => readArr fuel rest
    | '\x7b' :: rest => readObj fuel rest
    | '-' :: rest =>
      match readNat rest with
      | some (n, rest2) => some (.num (-(n : Int)), rest2)
      | none => none
    | c :: rest =>
      if isDigit c then
        match readNat (c :: rest) with
        | some (n, rest2) => some (.num (n : Int), rest2)
        | none => none
      else none
    | [] => none

/-- Parse the elements of an array, `[` already consumed. -/
def readArr : Nat → List Char → Option (Json × List Char)
  | 0, _ => none
  | fuel + 1, cs =>
    match skipWs cs with
    | ']' :: rest => some (.arr [], rest)
    | cs2 =>
      match readVal fuel cs2 with
      | some (v, rest) => readArrRest fuel rest [v]
      | none => none

/-- Parse `, value`* `]`, accumulating elements in reverse. -/
def readArrRest : Nat → List Char → List Json → Option (Json × List Char)
  | 0, _, _ => none
  | fuel + 1, cs, acc =>
    match skipWs cs with
    | ']' :: rest => some (.arr acc.reverse, rest)
    | ',' :: rest =>
      match readVal fuel rest with
      | some (v, rest2) => readArrRest fuel rest2 (v :: acc)
      | none => none
    | _ => none

/-- Parse the fields of an object, `{` already consumed. -/
def readObj : Nat → List Char → Option (Json × List Char)
  | 0, _ => none
  | fuel + 1, cs =>
    match skipWs cs with
    | '\x7d' :: rest => some (.obj [], rest)
    | cs2 =>
      match readField fuel cs2 with
      | some (k, v, rest) => readObjRest fuel rest (insertKV [] k v)
      | none => none

/-- Parse `, field`* `}`, accumulating fields in dict order. -/
def readObjRest : Nat → List Char → List (String × Json) → Option (Json × List Char)
  | 0, _, _ => none
  | fuel + 1, cs, acc =>
    match skipWs cs with
    | '\x7d' :: rest => some (.obj acc, rest)
    | ',' :: rest =>
      match readField fuel rest with
      | some (k, v, rest2) => readObjRest fuel rest2 (insertKV acc k v)
      | none => none
    | _ => none

/-- Parse one `"key": value` field. -/
def readField : Nat → List Char → Option (String × Json × List Char)
  | 0, _ => none
  | fuel + 1, cs =>
    match skipWs cs with
    | '"' :: rest =>
      match readStringBody rest [] with
      | some (k, rest2) =>
        match skipWs rest2 with
        | ':' :: rest3 =>
          match readVal fuel rest3 with
          | some (v, rest4) => some (k, v, rest4)
          | none => none
        | _ => none
      | none => none
    | _ => none

end

/-- Python `json.loads` on one line: parse a single JSON value and
require only whitespace after it; anything else is a
`json.JSONDecodeError` (a subclass of `ValueError`). -/
def loads (s : String) : Except PyExc Json :=
  match readVal (s.length + 1) s.data with
  | some (j, rest) =>
    match skipWs rest with
    | [] => .ok j
    | _ => .error (.jsonDecodeError "Extra data")
  | none => .error (.jsonDecodeError "Expecting value")

/-- Python `str.splitlines` (restricted to the ASCII line breaks
`\n`, `\r\n` and `\r`): no trailing empty line for a terminal break. -/
def splitlinesAux : List Char → List Char → List String
  | [], [] => []
  | [], acc => [String.mk acc.reverse]
  | '\r' :: '\n' :: rest, acc => String.mk acc.reverse :: splitlinesAux rest []
  | '\n' :: rest, acc => String.mk acc.reverse :: splitlinesAux rest []
  | '\r' :: rest, acc => String.mk acc.reverse :: splitlinesAux rest []
  | c :: rest, acc => splitlinesAux rest (c :: acc)

def splitlines (s : String) : List String := splitlinesAux s.data []

/-! ### The query translator `make_url` (source lines 93-117).

Python machine floats are modelled as rationals: `time()` becomes an
explicit `now : ℚ` parameter, `float(s)` becomes `pyFloat`, and `str`
of a float becomes `ratStr`.  `float(query["last"])` raises
`ValueError` when the string does not parse; `make_url` therefore
returns in `Except PyExc`. -/

def digitChar (n : Nat) : Char := Char.ofNat (48 + n % 10)

def natStrAux : Nat → Nat → List Char → List Char
  | 0, _, acc => acc
  | fuel + 1, n, acc =>
    if n = 0 then acc else natStrAux fuel (n / 10) (digitChar (n % 10) :: acc)

/-- Decimal rendering of a natural number. -/
def natStr (n : Nat) : String :=
  if n = 0 then "0" else String.mk (natStrAux (n + 1) n [])

/-- Decimal rendering of an integer. -/
def intStr (n : Int) : String :=
  if n < 0 then "-" ++ natStr n.natAbs else natStr n.natAbs

/-- Decimal rendering of a rational: the model of Python `str()` on the
float `time() - float(last)`. -/
def ratStr (q : ℚ) : String :=
  if q.den = 1 then intStr q.num else intStr q.num ++ "/" ++ natStr q.den

/-- Python `float(s)` on a (signed) decimal literal with optional
fractional part; any other string raises `ValueError`, modelled by
`none`. -/
def pyFloat (s : String) : Option ℚ :=
  let (sign, cs) : ℚ × List Char :=
    match s.data with
    | '-' :: rest => (-1, rest)
    | '+' :: rest => (1, rest)
    | cs => (1, cs)
  match cs.span isDigit with
  | (intPart, []) =>
    if intPart.isEmpty then none
    else some (sign * ((takeDigits intPart 0).1 : ℚ))
  | (intPart, '.' :: fracPart) =>
    if fracPart.all isDigit && !(intPart.isEmpty && fracPart.isEmpty) then
      some (sign * (((takeDigits intPart 0).1 : ℚ) +
        ((takeDigits fracPart 0).1 : ℚ) / ((10 : ℚ) ^ fracPart.length)))
    else none
  | _ => none

/-- The incoming query string, as an ordered multi-mapping from
parameter names to values. -/
abbrev Query := List (String × String)

/-- `query.get(k)` / `query[k]` on a `MultiMapping`: the first value
bound to the key, if any. -/
def qget (q : Query) (k : String) : Option String :=
  match q with
  | [] => none
  | (k0, v) :: rest => if k0 = k then some v else qget rest k

/-- Python truthiness of a `str | None` value: `None` and the empty
string are falsy. -/
def truthy : Option String → Bool
  | none => false
  | some s => s ≠ ""

/-- `make_url` (source lines 93-117), with the `time()` reading passed
in as `now`.  A `last` value that `float()` rejects raises `ValueError`
out of the function. -/
def make_url (now : ℚ) (query : Query) : Except PyExc String :=
  let url : String := "/api/v1/export?"
  match
    (if (qget query "last").isSome then
      match pyFloat ((qget query "last").getD "") with
      | some l => Except.ok (some (ratStr (now - l)))
      | none => Except.error (PyExc.valueError "could not convert string to float")
    else Except.ok (qget query "start") : Except PyExc (Option String)) with
  | .error e => .error e
  | .ok start =>
    let «end» : Option String := qget query "end"
    let url := if truthy start then url ++ "start=" ++ start.getD "" ++ "&" else url
    let url := if truthy «end» then url ++ "end=" ++ «end».getD "" ++ "&" else url
    let url :=
      if (qget query "match[]").isSome then
        url ++ "match[]=" ++ (qget query "match[]").getD ""
      else
        url ++ "match[]=\x7b__name__!=\x27\x27\x7d"
    .ok url

/-! ### The record conversion loop of `handle_export` (source lines
142-155), factored into per-line functions. -/

/-- Python subscription `j[k]` on a `json.loads` result: `dict` lookup
raising `KeyError` when the key is missing; everything else raises
`TypeError`. -/
def Json.getItem : Json → String → Except PyExc Json
  | .obj fields, k =>
    match fields.lookup k with
    | some v => .ok v
    | none => .error (.keyError k)
  | .arr _, _ => .error (.typeError "list indices must be integers or slices, not str")
  | _, _ => .error (.typeError "object is not subscriptable")

/-- Python `metric.pop("__name__")`: on a `dict`, return the value and
the remaining fields, raising `KeyError` when absent; a list's `pop`
rejects a string index with `TypeError`; other values have no `pop`
attribute. -/
def Json.popName : Json → Except PyExc (Json × List (String × Json))
  | .obj fields =>
    match fields.lookup "__name__" with
    | some v => .ok (v, fields.filter (fun kv => kv.1 ≠ "__name__"))
    | none => .error (.keyError "__name__")
  | .arr _ => .error (.typeError "\x27str\x27 object cannot be interpreted as an integer")
  | _ => .error (.attributeError "object has no attribute \x27pop\x27")

/-- Python iteration over a `json.loads` result, as consumed by `zip`:
lists yield their elements, strings their characters, dicts their keys;
`None`, booleans and numbers are not iterable. -/
def Json.pyIter : Json → Except PyExc (List Json)
  | .arr elems => .ok elems
  | .str s => .ok (s.data.map (fun c => .str (String.mk [c])))
  | .obj fields => .ok (fields.map (fun kv => .str kv.1))
  | _ => .error (.typeError "object is not iterable")

/-- The label rendering `",".join(f'{k}="{v}"' for k, v in
metric.items())` (source line 154). -/
def renderLabels (fields : List (String × Json)) : String :=
  String.intercalate "," (fields.map (fun kv => kv.1 ++ "=\"" ++ kv.2.pyStr ++ "\""))

/-- One exposition line (source line 155): a null value is rendered as
the literal `0`, the timestamp verbatim. -/
def renderSample (name : Json) (labels : String) (value timestamp : Json) : String :=
  name.pyStr ++ "\x7b" ++ labels ++ "\x7d " ++
    (match value with
     | .null => "0"
     | v => v.pyStr) ++ " " ++ timestamp.pyStr ++ "\n"

/-- The body of the per-line loop (source lines 143-155) applied to one
parsed record: extract `metric`, `values`, `timestamps`, pop
`__name__`, and render one exposition line per `zip`-pair. -/
def convertRecord (j : Json) : Except PyExc String := do
  let metric ← j.getItem "metric"
  let values ← j.getItem "values"
  let timestamps ← j.getItem "timestamps"
  let (metricName, rest) ← metric.popName
  let vs ← values.pyIter
  let ts ← timestamps.pyIter
  let labels := renderLabels rest
  pure (String.join ((vs.zip ts).map (fun p => renderSample metricName labels p.1 p.2)))

/-- The whole conversion loop: each line is parsed with `loads` and
converted; the first exception aborts the remaining lines. -/
def convertLines : List String → Except PyExc String
  | [] => .ok ""
  | line :: rest => do
    let j ← loads line
    let s ← convertRecord j
    let acc ← convertLines rest
    pure (s ++ acc)

/-! ### The export handler `handle_export` (source lines 120-170). -/

/-- The per-target instruments of the metrics sink: last export
duration gauge, export counter, failure counter and exported-lines
counter, each keyed by the `target` label. -/
structure Metrics where
  duration : String → Option ℚ
  exportCount : String → Nat
  exportFails : String → Nat
  exportLines : String → Nat

def Metrics.incFails (m : Metrics) (t : String) : Metrics :=
  { m with exportFails := fun s => if s = t then m.exportFails s + 1 else m.exportFails s }

def Metrics.incCount (m : Metrics) (t : String) : Metrics :=
  { m with exportCount := fun s => if s = t then m.exportCount s + 1 else m.exportCount s }

def Metrics.incLines (m : Metrics) (t : String) (n : Nat) : Metrics :=
  { m with exportLines := fun s => if s = t then m.exportLines s + n else m.exportLines s }

def Metrics.setDuration (m : Metrics) (t : String) (d : ℚ) : Metrics :=
  { m with duration := fun s => if s = t then some d else m.duration s }

structure Response where
  status : Nat
  body : String
deriving Repr, DecidableEq

/-- `handle_export` (source lines 120-170).  The ambient effects are
passed explicitly: `t0` is the `time()` reading at source line 130,
`tU` the reading inside `make_url` (line 98), `t1` the reading at line
165, and `fetch` the outcome of the upstream GET — `Except.error msg`
for an `aiohttp.ClientError`, `Except.ok text` for a response body.
The result pairs the handler's outcome (`Except.error` is an uncaught
exception propagating out of the coroutine) with the final metrics
state. -/
def handle_export (query : Query) (fetch : Except String String) (t0 tU t1 : ℚ)
    (m : Metrics) : (Except PyExc Response) × Metrics :=
  if (qget query "target").isNone then
    (.ok ⟨400, "Missing \x27target\x27 query field"⟩, m)
  else
    let target := (qget query "target").getD ""
    match make_url tU query with
    | .error e => (.error e, m)
    | .ok _url =>
      match fetch with
      | .error msg => (.ok ⟨400, (PyExc.clientError msg).text⟩, m.incFails target)
      | .ok text =>
        let lines := splitlines text
        match convertLines lines with
        | .error e =>
          if e.caught then (.ok ⟨400, e.text⟩, m.incFails target)
          else (.error e, m)
        | .ok body =>
          (.ok ⟨200, body⟩,
            (((m.setDuration target (t1 - t0)).incCount target).incLines target lines.length))

/-! ### Specification vocabulary for the built query.

`startSeg`, `endSeg` and `matchSeg` name the three segments of the
query that `make_url` builds, so that the theorems below can speak
about the built query componentwise. -/

/-- The `start=...&` segment of the built query (empty when omitted). -/
def startSeg (now : ℚ) (query : Query) : String :=
  match qget query "last" with
  | some ls =>
    match pyFloat ls with
    | some l => "start=" ++ ratStr (now - l) ++ "&"
    | none => ""
  | none =>
    if truthy (qget query "start") then "start=" ++ (qget query "start").getD "" ++ "&"
    else ""

/-- The `end=...&` segment of the built query (empty when omitted). -/
def endSeg (query : Query) : String :=
  if truthy (qget query "end") then "end=" ++ (qget query "end").getD "" ++ "&" else ""

/-- The `match[]=...` segment of the built query. -/
def matchSeg (query : Query) : String :=
  if (qget query "match[]").isSome then "match[]=" ++ (qget query "match[]").getD ""
  else "match[]=\x7b__name__!=\x27\x27\x7d"

/-! ### Helper lemmas -/

theorem natStrAux_ne_nil (fuel : Nat) : ∀ (n : Nat) (acc : List Char),
    acc ≠ [] → natStrAux fuel n acc ≠ [] := by
  induction fuel with
  | zero => intro n acc h; simpa [natStrAux] using h
  | succ fuel ih =>
    intro n acc h
    rw [natStrAux]
    by_cases hn : n = 0
    · simpa [hn] using h
    · simpa [hn] using ih (n / 10) (digitChar (n % 10) :: acc) (by simp)

theorem natStr_ne_empty (n : Nat) : natStr n ≠ "" := by
  rw [natStr]
  by_cases hn : n = 0
  · simp [hn]
  · simp only [hn, if_false]
    intro h
    have hd : natStrAux (n + 1) n [] = [] := by
      simpa using congrArg String.data h
    have hu : natStrAux (n + 1) n [] =
        if n = 0 then [] else natStrAux n (n / 10) (digitChar (n % 10) :: []) := rfl
    rw [hu, if_neg hn] at hd
    exact natStrAux_ne_nil n (n / 10) (digitChar (n % 10) :: []) (by simp) hd

theorem string_append_ne_empty_left (a b : String) (h : a ≠ "") : a ++ b ≠ "" := by
  intro hab
  apply h
  have := congrArg String.data hab
  rw [String.data_append] at this
  rcases List.append_eq_nil.mp this with ⟨h1, _⟩
  exact String.ext h1

theorem intStr_ne_empty (n : Int) : intStr n ≠ "" := by
  rw [intStr]
  by_cases hn : n < 0
  · simp only [hn, if_true]
    exact string_append_ne_empty_left "-" _ (by decide)
  · simp only [hn, if_false]
    exact natStr_ne_empty _

theorem ratStr_ne_empty (q : ℚ) : ratStr q ≠ "" := by
  rw [ratStr]
  by_cases h : q.den = 1
  · simp only [h, if_pos rfl]
    exact intStr_ne_empty _
  · simp only [h, if_false]
    exact string_append_ne_empty_left _ _ (string_append_ne_empty_left _ _ (intStr_ne_empty _))

theorem string_append_assoc (a b c : String) : a ++ b ++ c = a ++ (b ++ c) := by
  apply String.ext
  simp [String.data_append]

/-- The built query, componentwise: whenever `make_url` does not raise
(`last` absent or parseable), the result is the base path followed by
the three segments, in the fixed order `start`, `end`, `match[]`. -/
theorem make_url_spec (now : ℚ) (query : Query)
    (h : qget query "last" = none ∨ ∃ l, pyFloat ((qget query "last").getD "") = some l) :
    make_url now query =
      .ok ("/api/v1/export?" ++ startSeg now query ++ endSeg query ++ matchSeg query) := by
  rw [make_url, startSeg]
  rcases h with h | ⟨l, hl⟩
  · rw [h]
    simp only [Option.isSome_none, Bool.false_eq_true, if_false]
    rw [endSeg, matchSeg]
    by_cases hs : truthy (qget query "start") <;>
      by_cases he : truthy (qget query "end") <;>
      by_cases hm : (qget query "match[]").isSome <;>
      simp [hs, he, hm, ← string_append_assoc]
  · rcases hget : qget query "last" with _ | ls
    · rw [hget] at hl
      have hd : pyFloat ((Option.getD (none : Option String) "")) = none := rfl
      rw [hd] at hl
      exact absurd hl (by simp)
    · rw [hget] at hl
      simp only [Option.getD_some] at hl
      simp only [Option.isSome_some, if_true]
      have hne : truthy (some (ratStr (now - l))) = true := by
        simp [truthy, ratStr_ne_empty]
      rw [endSeg, matchSeg]
      by_cases he : truthy (qget query "end") <;>
        by_cases hm : (qget query "match[]").isSome <;>
        simp [hl, hne, he, hm, ← string_append_assoc]

/-- The query with every binding of one parameter removed (used to
state that an empty-valued parameter behaves as an absent one). -/
def dropKey (key : String) (q : Query) : Query :=
  q.filter (fun kv => kv.1 ≠ key)

theorem qget_dropKey_self (q : Query) (key : String) :
    qget (dropKey key q) key = none := by
  induction q with
  | nil => rfl
  | cons kv rest ih =>
    obtain ⟨k0, v⟩ := kv
    by_cases h : k0 = key
    · simpa [dropKey, List.filter, h] using ih
    · simpa [dropKey, List.filter, h, qget] using ih

theorem qget_dropKey_other (q : Query) (key k : String) (hk : k ≠ key) :
    qget (dropKey key q) k = qget q k := by
  induction q with
  | nil => rfl
  | cons kv rest ih =>
    obtain ⟨k0, v⟩ := kv
    by_cases h : k0 = key
    · subst h
      simpa [dropKey, List.filter, qget, Ne.symm hk] using ih
    · by_cases h2 : k0 = k
      · subst h2
        simp [dropKey, List.filter, qget, h]
      · simpa [dropKey, List.filter, qget, h, h2] using ih

/-- The success path of the handler (source lines 135-170 with no
exception): 200 response, duration set, export counter and line
counter bumped. -/
theorem handle_export_ok (query : Query) (t text body u : String) (t0 tU t1 : ℚ)
    (m : Metrics)
    (ht : qget query "target" = some t)
    (hu : make_url tU query = .ok u)
    (hc : convertLines (splitlines text) = .ok body) :
    handle_export query (.ok text) t0 tU t1 m =
      (.ok ⟨200, body⟩,
        ((m.setDuration t (t1 - t0)).incCount t).incLines t (splitlines text).length) := by
  rw [handle_export]
  simp [ht, hu, hc]

/-- The transport-failure path: a `ClientError` from the upstream GET
is caught, counted and turned into a 400 response. -/
theorem handle_export_client_error (query : Query) (t msg u : String) (t0 tU t1 : ℚ)
    (m : Metrics)
    (ht : qget query "target" = some t)
    (hu : make_url tU query = .ok u) :
    handle_export query (.error msg) t0 tU t1 m =
      (.ok ⟨400, msg⟩, m.incFails t) := by
  rw [handle_export]
  simp [ht, hu, PyExc.text]

/-- The conversion-failure path for a caught exception
(`JSONDecodeError` / `ValueError`): counted and turned into a 400
response carrying `str(exc)`. -/
theorem handle_export_caught (query : Query) (t text u : String) (e : PyExc) (t0 tU t1 : ℚ)
    (m : Metrics)
    (ht : qget query "target" = some t)
    (hu : make_url tU query = .ok u)
    (hc : convertLines (splitlines text) = .error e)
    (hcaught : e.caught = true) :
    handle_export query (.ok text) t0 tU t1 m =
      (.ok ⟨400, e.text⟩, m.incFails t) := by
  rw [handle_export]
  simp [ht, hu, hc, hcaught]

/-- The conversion-failure path for an uncaught exception (`KeyError`,
`TypeError`, `AttributeError`): the exception propagates out of the
handler and no metric is touched. -/
theorem handle_export_uncaught (query : Query) (t text u : String) (e : PyExc) (t0 tU t1 : ℚ)
    (m : Metrics)
    (ht : qget query "target" = some t)
    (hu : make_url tU query = .ok u)
    (hc : convertLines (splitlines text) = .error e)
    (hcaught : e.caught = false) :
    handle_export query (.ok text) t0 tU t1 m = (.error e, m) := by
  rw [handle_export]
  simp [ht, hu, hc, hcaught]

theorem string_append_empty_right (a : String) : a ++ "" = a := by
  apply String.ext
  simp [String.data_append]

/-! ### Claims about the query translator -/

/-- Claim C2, counterexample: `make_url` is not total.  On a query
where `last` is present with the non-numeric value `"abc"`,
`float(query["last"])` raises `ValueError` instead of returning a
path (and this call sits outside the handler's `try` block). -/
theorem make_url_nonnumeric_last_raises_cex :
    make_url 1000 [("last", "abc"), ("start", "5")] =
      .error (.valueError "could not convert string to float") := rfl

/-- Claim C2, amended: the query translator `make_url` returns, without
raising, a relative path string beginning `/api/v1/export?` for every
query mapping in which `last` is absent or `last`'s first value parses
as a float; when `last` is present with a value `float()` rejects, it
raises `ValueError`. -/
theorem make_url_total_when_last_parses (now : ℚ) (query : Query)
    (h : qget query "last" = none ∨ ∃ l, pyFloat ((qget query "last").getD "") = some l) :
    ∃ rest, make_url now query = .ok ("/api/v1/export?" ++ rest) := by
  refine ⟨startSeg now query ++ (endSeg query ++ matchSeg query), ?_⟩
  rw [make_url_spec now query h, string_append_assoc, string_append_assoc]

/-- Witness for C2's amended theorem at the query `last=1`. -/
theorem make_url_total_when_last_parses_witness :
    (qget [("last", "1")] "last" = none ∨
      ∃ l, pyFloat ((qget [("last", "1")] "last").getD "") = some l) ∧
    ∃ rest, make_url 1000 [("last", "1")] = .ok ("/api/v1/export?" ++ rest) := by
  have h : qget [("last", "1")] "last" = none ∨
      ∃ l, pyFloat ((qget [("last", "1")] "last").getD "") = some l :=
    Or.inr ⟨1, by simp +decide [pyFloat, qget]⟩
  exact ⟨h, make_url_total_when_last_parses 1000 [("last", "1")] h⟩

/-- Claim C5, counterexample: with `last` absent and a caller-supplied
`start` equal to the empty string, the supplied `start` is *not* used:
the built query carries no `start=` segment at all, indistinguishably
from omitting the parameter (Python string truthiness at source line
105). -/
theorem make_url_empty_start_cex :
    qget [("start", "")] "last" = none ∧
    qget [("start", "")] "start" = some "" ∧
    make_url 1000 [("start", "")] = .ok "/api/v1/export?match[]=\x7b__name__!=\x27\x27\x7d" ∧
    make_url 1000 [("start", "")] = make_url 1000 [] :=
  ⟨rfl, rfl, rfl, rfl⟩

/-- Claim C5, amended: when `last=L` is present (and parses), the built
query's `start` component is the decimal rendering of `now - L` and
any caller-supplied `start` is ignored; when `last` is absent, a
*nonempty* caller-supplied `start` is used verbatim, and an absent or
empty `start` is omitted entirely. -/
theorem make_url_start_resolution (now : ℚ) (query : Query) :
    (∀ ls l, qget query "last" = some ls → pyFloat ls = some l →
      make_url now query =
        .ok ("/api/v1/export?" ++ ("start=" ++ ratStr (now - l) ++ "&") ++
          endSeg query ++ matchSeg query)) ∧
    (qget query "last" = none →
      (∀ s, qget query "start" = some s → s ≠ "" →
        make_url now query =
          .ok ("/api/v1/export?" ++ ("start=" ++ s ++ "&") ++
            endSeg query ++ matchSeg query)) ∧
      ((qget query "start" = none ∨ qget query "start" = some "") →
        make_url now query = .ok ("/api/v1/export?" ++ endSeg query ++ matchSeg query))) := by
  refine ⟨?_, ?_⟩
  · intro ls l hls hl
    have hstart : startSeg now query = "start=" ++ ratStr (now - l) ++ "&" := by
      simp only [startSeg, hls, hl]
    rw [make_url_spec now query (Or.inr ⟨l, by rw [hls]; simpa using hl⟩), hstart]
  · intro hlast
    refine ⟨?_, ?_⟩
    · intro s hs hne
      have hstart : startSeg now query = "start=" ++ s ++ "&" := by
        simp only [startSeg, hlast, hs]
        simp [truthy, hne]
      rw [make_url_spec now query (Or.inl hlast), hstart]
    · intro hs
      have hstart : startSeg now query = "" := by
        rcases hs with hs | hs <;> simp [startSeg, hlast, hs, truthy]
      rw [make_url_spec now query (Or.inl hlast), hstart, string_append_empty_right]

/-- Witness for C5's amended theorem at the query `last=0&start=5`
with `now = 7`. -/
theorem make_url_start_resolution_witness :
    qget [("last", "0"), ("start", "5")] "last" = some "0" ∧
    pyFloat "0" = some 0 ∧
    make_url 7 [("last", "0"), ("start", "5")] =
      .ok ("/api/v1/export?" ++ ("start=" ++ ratStr (7 - 0) ++ "&") ++
        endSeg [("last", "0"), ("start", "5")] ++ matchSeg [("last", "0"), ("start", "5")]) := by
  have hp : pyFloat "0" = some 0 := by simp +decide [pyFloat]
  exact ⟨rfl, hp, (make_url_start_resolution 7 _).1 "0" 0 rfl hp⟩

/-- Claim C9: the built query is always `/api/v1/export?` followed by
the `start`, `end`, `match[]` segments in that fixed order; when
`match[]` is absent the query ends with the default selector
`match[]={__name__!=''}`, and when present exactly its first value is
forwarded verbatim. -/
theorem make_url_match_selector_and_order (now : ℚ) (query : Query)
    (h : qget query "last" = none ∨ ∃ l, pyFloat ((qget query "last").getD "") = some l) :
    make_url now query =
      .ok ("/api/v1/export?" ++ startSeg now query ++ endSeg query ++ matchSeg query) ∧
    (qget query "match[]" = none →
      ∃ p, make_url now query = .ok (p ++ "match[]=\x7b__name__!=\x27\x27\x7d")) ∧
    ∀ v, qget query "match[]" = some v →
      ∃ p, make_url now query = .ok (p ++ ("match[]=" ++ v)) := by
  refine ⟨make_url_spec now query h, ?_, ?_⟩
  · intro hm
    refine ⟨"/api/v1/export?" ++ startSeg now query ++ endSeg query, ?_⟩
    rw [make_url_spec now query h]
    have hms : matchSeg query = "match[]=\x7b__name__!=\x27\x27\x7d" := by
      simp [matchSeg, hm]
    rw [hms]
  · intro v hm
    refine ⟨"/api/v1/export?" ++ startSeg now query ++ endSeg query, ?_⟩
    rw [make_url_spec now query h]
    have hms : matchSeg query = "match[]=" ++ v := by simp [matchSeg, hm]
    rw [hms]

/-- Witness for C9 at the empty query (no `match[]`): the built query
ends with the default selector. -/
theorem make_url_match_selector_and_order_witness :
    qget ([] : Query) "last" = none ∧
    qget ([] : Query) "match[]" = none ∧
    ∃ p, make_url 0 [] = .ok (p ++ "match[]=\x7b__name__!=\x27\x27\x7d") :=
  ⟨rfl, rfl, (make_url_match_selector_and_order 0 [] (Or.inl rfl)).2.1 rfl⟩

/-- Claim C10: with `last` absent, a `start` or `end` supplied as the
empty string is omitted from the built query entirely — `make_url`
returns the same path as for the query with that parameter removed. -/
theorem make_url_empty_param_omitted (now : ℚ) (query : Query)
    (hlast : qget query "last" = none) :
    (qget query "start" = some "" →
      make_url now query = make_url now (dropKey "start" query)) ∧
    (qget query "end" = some "" →
      make_url now query = make_url now (dropKey "end" query)) := by
  constructor
  · intro hs
    have hlast2 : qget (dropKey "start" query) "last" = none := by
      rw [qget_dropKey_other query "start" "last" (by decide)]
      exact hlast
    rw [make_url_spec now query (Or.inl hlast), make_url_spec now _ (Or.inl hlast2)]
    have h1 : startSeg now query = "" := by simp [startSeg, hlast, hs, truthy]
    have h2 : startSeg now (dropKey "start" query) = "" := by
      simp [startSeg, hlast2, qget_dropKey_self, truthy]
    have h3 : endSeg (dropKey "start" query) = endSeg query := by
      simp only [endSeg, qget_dropKey_other query "start" "end" (by decide)]
    have h4 : matchSeg (dropKey "start" query) = matchSeg query := by
      simp only [matchSeg, qget_dropKey_other query "start" "match[]" (by decide)]
    rw [h1, h2, h3, h4]
  · intro hs
    have hlast2 : qget (dropKey "end" query) "last" = none := by
      rw [qget_dropKey_other query "end" "last" (by decide)]
      exact hlast
    rw [make_url_spec now query (Or.inl hlast), make_url_spec now _ (Or.inl hlast2)]
    have h1 : endSeg query = "" := by simp [endSeg, hs, truthy]
    have h2 : endSeg (dropKey "end" query) = "" := by
      simp [endSeg, qget_dropKey_self, truthy]
    have h3 : startSeg now (dropKey "end" query) = startSeg now query := by
      simp only [startSeg, hlast, hlast2,
        qget_dropKey_other query "end" "start" (by decide)]
    have h4 : matchSeg (dropKey "end" query) = matchSeg query := by
      simp only [matchSeg, qget_dropKey_other query "end" "match[]" (by decide)]
    rw [h1, h2, h3, h4]

/-- Witness for C10 at the query `start=` (empty value, no `last`). -/
theorem make_url_empty_param_omitted_witness :
    qget [("start", "")] "last" = none ∧
    qget [("start", "")] "start" = some "" ∧
    make_url 3 [("start", "")] = make_url 3 (dropKey "start" [("start", "")]) :=
  ⟨rfl, rfl, (make_url_empty_param_omitted 3 [("start", "")] rfl).1 rfl⟩

/-! ### Claims about the record converter and the export handler -/

/-- A fresh metrics state (all counters zero, gauge unset). -/
def initialMetrics : Metrics :=
  ⟨fun _ => none, fun _ => 0, fun _ => 0, fun _ => 0⟩

/-- The well-formed upstream record of the spec's round-trip example. -/
def sampleLine : String :=
  "\x7b\"metric\":\x7b\"__name__\":\"up\",\"job\":\"x\"\x7d,\"values\":[1,null],\"timestamps\":[100,200]\x7d"

/-- A record that parses as JSON but lacks the `metric` field. -/
def missingMetricLine : String := "\x7b\"values\":[],\"timestamps\":[]\x7d"

/-- Claim C4: for the record
`{"metric":{"__name__":"up","job":"x"},"values":[1,null],"timestamps":[100,200]}`
the converter emits exactly the two newline-terminated exposition lines
`up{job="x"} 1 100` and `up{job="x"} 0 200`: the null value is rendered
as the literal `0` and the timestamps verbatim. -/
theorem convert_roundtrip_null_to_zero :
    convertLines [sampleLine] =
      .ok "up\x7bjob=\"x\"\x7d 1 100\nup\x7bjob=\"x\"\x7d 0 200\n" := rfl

/-- Claim C6: a parsed record whose `values` and `timestamps` arrays
differ in length does not fail the conversion: the arrays are paired
positionally and truncated to the shorter, emitting exactly
`min (len values) (len timestamps)` exposition lines. -/
theorem convertRecord_truncates_to_shorter (j metric name : Json)
    (rest : List (String × Json)) (vs ts : List Json)
    (hm : j.getItem "metric" = .ok metric)
    (hv : j.getItem "values" = .ok (.arr vs))
    (ht : j.getItem "timestamps" = .ok (.arr ts))
    (hp : metric.popName = .ok (name, rest))
    (hne : vs.length ≠ ts.length) :
    convertRecord j =
      .ok (String.join ((vs.zip ts).map
        (fun p => renderSample name (renderLabels rest) p.1 p.2))) ∧
    ((vs.zip ts).map (fun p => renderSample name (renderLabels rest) p.1 p.2)).length =
      min vs.length ts.length := by
  constructor
  · rw [convertRecord]
    simp [hm, hv, ht, hp, Json.pyIter, Bind.bind, Except.bind, Functor.map, Except.map,
      Pure.pure, Except.pure]
  · simp [List.length_zip]

/-- Witness for C6 at a record with two values and one timestamp. -/
theorem convertRecord_truncates_to_shorter_witness :
    (Json.obj [("metric", .obj [("__name__", .str "up")]),
        ("values", .arr [.num 1, .num 2]),
        ("timestamps", .arr [.num 100])]).getItem "metric" =
      .ok (.obj [("__name__", .str "up")]) ∧
    (Json.obj [("metric", .obj [("__name__", .str "up")]),
        ("values", .arr [.num 1, .num 2]),
        ("timestamps", .arr [.num 100])]).getItem "values" =
      .ok (.arr [.num 1, .num 2]) ∧
    (Json.obj [("metric", .obj [("__name__", .str "up")]),
        ("values", .arr [.num 1, .num 2]),
        ("timestamps", .arr [.num 100])]).getItem "timestamps" =
      .ok (.arr [.num 100]) ∧
    (Json.obj [("__name__", .str "up")]).popName = .ok (.str "up", []) ∧
    ([Json.num 1, Json.num 2].length ≠ [Json.num 100].length) ∧
    (convertRecord (Json.obj [("metric", .obj [("__name__", .str "up")]),
        ("values", .arr [.num 1, .num 2]),
        ("timestamps", .arr [.num 100])]) =
      .ok (String.join (([Json.num 1, Json.num 2].zip [Json.num 100]).map
        (fun p => renderSample (.str "up") (renderLabels []) p.1 p.2))) ∧
      (([Json.num 1, Json.num 2].zip [Json.num 100]).map
        (fun p => renderSample (.str "up") (renderLabels []) p.1 p.2)).length =
        min [Json.num 1, Json.num 2].length [Json.num 100].length) :=
  ⟨rfl, rfl, rfl, rfl, by decide,
    convertRecord_truncates_to_shorter _ _ _ _ _ _ rfl rfl rfl rfl (by decide)⟩

/-- Claim C8: a request without a `target` parameter is answered with a
400 response whose body is `Missing 'target' query field`; the metrics
state is returned untouched and the outcome does not depend on the
upstream fetch at all (no upstream call is observable). -/
theorem handle_export_missing_target (query : Query)
    (fetch fetch2 : Except String String) (t0 tU t1 t0' tU' t1' : ℚ) (m : Metrics)
    (h : qget query "target" = none) :
    handle_export query fetch t0 tU t1 m =
      (.ok ⟨400, "Missing \x27target\x27 query field"⟩, m) ∧
    handle_export query fetch t0 tU t1 m = handle_export query fetch2 t0' tU' t1' m := by
  constructor
  · rw [handle_export]
    simp [h]
  · rw [handle_export, handle_export]
    simp [h]

/-- Witness for C8 at the empty query. -/
theorem handle_export_missing_target_witness :
    qget ([] : Query) "target" = none ∧
    handle_export [] (.ok "x") 0 0 0 initialMetrics =
      (.ok ⟨400, "Missing \x27target\x27 query field"⟩, initialMetrics) :=
  ⟨rfl,
    (handle_export_missing_target [] (.ok "x") (.error "e") 0 0 0 1 1 1
      initialMetrics rfl).1⟩

/-- Claim C3: a successful export whose upstream body splits into N
lines returns the rendered body with status 200, increments the
per-target export counter by exactly 1 and the per-target sample
counter by exactly N (the number of input lines), and sets the
per-target duration gauge to the non-negative value `t1 - t0`. -/
theorem handle_export_success_metrics (query : Query) (t text body u : String)
    (t0 tU t1 : ℚ) (m : Metrics)
    (ht : qget query "target" = some t)
    (hu : make_url tU query = .ok u)
    (hc : convertLines (splitlines text) = .ok body)
    (hclock : t0 ≤ t1) :
    (handle_export query (.ok text) t0 tU t1 m).1 = .ok ⟨200, body⟩ ∧
    (handle_export query (.ok text) t0 tU t1 m).2.exportCount t = m.exportCount t + 1 ∧
    (handle_export query (.ok text) t0 tU t1 m).2.exportLines t =
      m.exportLines t + (splitlines text).length ∧
    (handle_export query (.ok text) t0 tU t1 m).2.duration t = some (t1 - t0) ∧
    0 ≤ t1 - t0 := by
  rw [handle_export_ok query t text body u t0 tU t1 m ht hu hc]
  refine ⟨rfl, ?_, ?_, ?_, by linarith⟩ <;>
    simp [Metrics.incLines, Metrics.incCount, Metrics.setDuration]

/-- Witness for C3: one upstream line expanding to two samples bumps
the sample counter by 1, not 2. -/
theorem handle_export_success_metrics_witness :
    qget [("target", "http://vm")] "target" = some "http://vm" ∧
    make_url 0 [("target", "http://vm")] =
      .ok "/api/v1/export?match[]=\x7b__name__!=\x27\x27\x7d" ∧
    convertLines (splitlines sampleLine) =
      .ok "up\x7bjob=\"x\"\x7d 1 100\nup\x7bjob=\"x\"\x7d 0 200\n" ∧
    (0 : ℚ) ≤ 1 ∧
    ((handle_export [("target", "http://vm")] (.ok sampleLine) 0 0 1 initialMetrics).1 =
        .ok ⟨200, "up\x7bjob=\"x\"\x7d 1 100\nup\x7bjob=\"x\"\x7d 0 200\n"⟩ ∧
      (handle_export [("target", "http://vm")] (.ok sampleLine) 0 0 1
          initialMetrics).2.exportCount "http://vm" =
        initialMetrics.exportCount "http://vm" + 1 ∧
      (handle_export [("target", "http://vm")] (.ok sampleLine) 0 0 1
          initialMetrics).2.exportLines "http://vm" =
        initialMetrics.exportLines "http://vm" + (splitlines sampleLine).length ∧
      (handle_export [("target", "http://vm")] (.ok sampleLine) 0 0 1
          initialMetrics).2.duration "http://vm" = some ((1 : ℚ) - 0) ∧
      (0 : ℚ) ≤ (1 : ℚ) - 0) :=
  ⟨rfl, rfl, rfl, by norm_num,
    handle_export_success_metrics [("target", "http://vm")] "http://vm" sampleLine
      "up\x7bjob=\"x\"\x7d 1 100\nup\x7bjob=\"x\"\x7d 0 200\n"
      "/api/v1/export?match[]=\x7b__name__!=\x27\x27\x7d" 0 0 1 initialMetrics
      rfl rfl rfl (by norm_num)⟩

/-- Claim C7: a fetch/convert failure of a *caught* kind — a transport
(`ClientError`) failure, a line that is not valid JSON
(`JSONDecodeError`), or any `ValueError` — increments exactly the
per-target failure counter and yields a 400 response whose body is the
failure's textual description; the export counter, sample counter and
duration gauge are left unchanged. -/
theorem handle_export_failure_metrics (query : Query) (t u : String)
    (fetch : Except String String) (t0 tU t1 : ℚ) (m : Metrics)
    (ht : qget query "target" = some t)
    (hu : make_url tU query = .ok u)
    (hfail : (∃ msg, fetch = .error msg) ∨
      (∃ text e, fetch = .ok text ∧ convertLines (splitlines text) = .error e ∧
        e.caught = true)) :
    (∃ e : PyExc, e.caught = true ∧
      handle_export query fetch t0 tU t1 m = (.ok ⟨400, e.text⟩, m.incFails t)) ∧
    (handle_export query fetch t0 tU t1 m).2.exportFails t = m.exportFails t + 1 ∧
    (∀ s, s ≠ t → (handle_export query fetch t0 tU t1 m).2.exportFails s =
      m.exportFails s) ∧
    (handle_export query fetch t0 tU t1 m).2.exportCount = m.exportCount ∧
    (handle_export query fetch t0 tU t1 m).2.exportLines = m.exportLines ∧
    (handle_export query fetch t0 tU t1 m).2.duration = m.duration := by
  have hres : ∃ e : PyExc, e.caught = true ∧
      handle_export query fetch t0 tU t1 m = (.ok ⟨400, e.text⟩, m.incFails t) := by
    rcases hfail with ⟨msg, hmsg⟩ | ⟨text, e, htext, hc, hcaught⟩
    · subst hmsg
      exact ⟨.clientError msg, rfl,
        handle_export_client_error query t msg u t0 tU t1 m ht hu⟩
    · subst htext
      exact ⟨e, hcaught, handle_export_caught query t text u e t0 tU t1 m ht hu hc hcaught⟩
  rcases hres with ⟨e, hcaught, heq⟩
  refine ⟨⟨e, hcaught, heq⟩, ?_, ?_, ?_, ?_, ?_⟩ <;>
    rw [heq] <;>
    simp [Metrics.incFails]

/-- Witness for C7 at a transport failure. -/
theorem handle_export_failure_metrics_witness :
    qget [("target", "http://vm")] "target" = some "http://vm" ∧
    make_url 0 [("target", "http://vm")] =
      .ok "/api/v1/export?match[]=\x7b__name__!=\x27\x27\x7d" ∧
    (∃ msg, (Except.error "connection refused" : Except String String) = .error msg) ∧
    ((∃ e : PyExc, e.caught = true ∧
        handle_export [("target", "http://vm")] (.error "connection refused") 0 0 1
          initialMetrics = (.ok ⟨400, e.text⟩, initialMetrics.incFails "http://vm")) ∧
      (handle_export [("target", "http://vm")] (.error "connection refused") 0 0 1
          initialMetrics).2.exportFails "http://vm" =
        initialMetrics.exportFails "http://vm" + 1 ∧
      (∀ s, s ≠ "http://vm" →
        (handle_export [("target", "http://vm")] (.error "connection refused") 0 0 1
            initialMetrics).2.exportFails s = initialMetrics.exportFails s) ∧
      (handle_export [("target", "http://vm")] (.error "connection refused") 0 0 1
          initialMetrics).2.exportCount = initialMetrics.exportCount ∧
      (handle_export [("target", "http://vm")] (.error "connection refused") 0 0 1
          initialMetrics).2.exportLines = initialMetrics.exportLines ∧
      (handle_export [("target", "http://vm")] (.error "connection refused") 0 0 1
          initialMetrics).2.duration = initialMetrics.duration) :=
  ⟨rfl, rfl, ⟨"connection refused", rfl⟩,
    handle_export_failure_metrics [("target", "http://vm")] "http://vm"
      "/api/v1/export?match[]=\x7b__name__!=\x27\x27\x7d" (.error "connection refused")
      0 0 1 initialMetrics rfl rfl (Or.inl ⟨"connection refused", rfl⟩)⟩

/-- Claim C1, counterexample: an upstream body consisting of the valid
JSON line `{"values":[],"timestamps":[]}` — a record lacking the
`metric` field — is *not* reported like a transport failure: the
handler raises an uncaught `KeyError` instead of returning a 400
response, and the per-target failure counter stays at 0. -/
theorem handle_export_missing_field_cex :
    loads missingMetricLine =
      .ok (.obj [("values", .arr []), ("timestamps", .arr [])]) ∧
    handle_export [("target", "http://vm")] (.ok missingMetricLine) 0 0 1 initialMetrics =
      (.error (.keyError "metric"), initialMetrics) ∧
    (handle_export [("target", "http://vm")] (.ok missingMetricLine) 0 0 1
        initialMetrics).2.exportFails "http://vm" = 0 :=
  ⟨rfl, rfl, rfl⟩

/-- Claim C1, amended: a line that parses as JSON but whose record
lacks `metric`, `values`, `timestamps` or the `__name__` label entry
makes the conversion raise `KeyError`, which the handler's
`except (ClientError, JSONDecodeError, ValueError)` clause does *not*
catch: the failure counter is not incremented and no 400 response is
produced — the exception propagates out of the handler with the
metrics unchanged (a 500-equivalent), unlike a transport failure. -/
theorem handle_export_missing_field_uncaught (query : Query)
    (t text u k : String) (t0 tU t1 : ℚ) (m : Metrics)
    (ht : qget query "target" = some t)
    (hu : make_url tU query = .ok u)
    (hc : convertLines (splitlines text) = .error (.keyError k)) :
    handle_export query (.ok text) t0 tU t1 m = (.error (.keyError k), m) :=
  handle_export_uncaught query t text u (.keyError k) t0 tU t1 m ht hu hc rfl

/-- Witness for C1's amended theorem at the record lacking `metric`. -/
theorem handle_export_missing_field_uncaught_witness :
    qget [("target", "http://vm")] "target" = some "http://vm" ∧
    make_url 0 [("target", "http://vm")] =
      .ok "/api/v1/export?match[]=\x7b__name__!=\x27\x27\x7d" ∧
    convertLines (splitlines missingMetricLine) = .error (.keyError "metric") ∧
    handle_export [("target", "http://vm")] (.ok missingMetricLine) 0 0 1 initialMetrics =
      (.error (.keyError "metric"), initialMetrics) :=
  ⟨rfl, rfl, rfl,
    handle_export_missing_field_uncaught [("target", "http://vm")] "http://vm"
      missingMetricLine "/api/v1/export?match[]=\x7b__name__!=\x27\x27\x7d" "metric"
      0 0 1 initialMetrics rfl rfl rfl⟩

end VMExporter
